import Mathlib

/-!
Verification of the Medole dehumidifier Modbus integration (benck/ha-medole).

Shallow embedding of:
* `mock-server/medole_registers.py` — register constants and encode/decode helpers;
* `custom_components/medole/sensor.py` — the sensor platform's status/pipe decodings;
* `mock-server/mock_modbus_server.py` — the simulator's periodic state update;
* `custom_components/medole/modbus.py` — the singleton client registry and the
  read/write operations with their connection lifecycle.

Machine integers are modelled as `Nat` (register values are 16-bit and every
operation embedded here stays within that range or is masked explicitly, as in
the source).  Python floats appearing in the simulator are modelled as `ℚ`:
every claim settled here depends only on order/truncation facts that hold for
both the exact rational and the nearby IEEE double.
-/

namespace Medole

/-! ## Register constants (`mock-server/medole_registers.py`) -/

def REG_TEMPERATURE_1 : Nat := 0x6101
def REG_HUMIDITY_1 : Nat := 0x6102
def REG_TEMPERATURE_2 : Nat := 0x6103
def REG_HUMIDITY_2 : Nat := 0x6104
def REG_OPERATION_STATUS : Nat := 0x6105
def REG_PIPE_TEMPERATURE : Nat := 0x6106
def REG_FAN_OPERATION_HOURS : Nat := 0x6111

def STATUS_COMPRESSOR_ON : Nat := 0x80
def STATUS_FAN_ON : Nat := 0x40
def STATUS_PIPE_TEMP_ERROR : Nat := 0x10
def STATUS_HUMIDITY_SENSOR_ERROR : Nat := 0x08
def STATUS_ROOM_TEMP_ERROR : Nat := 0x04
def STATUS_WATER_FULL_ERROR : Nat := 0x02
def STATUS_HIGH_PRESSURE_ERROR : Nat := 0x0800
def STATUS_LOW_PRESSURE_ERROR : Nat := 0x0400

def CONTINUOUS_DEHUMIDIFICATION : Nat := 0
def MIN_HUMIDITY : Nat := 20
def MAX_HUMIDITY : Nat := 90

/-- Embeds `encode_temperature(integer_part, decimal_part)`:
`(decimal_part << 8) | integer_part`. -/
def encode_temperature (integer_part decimal_part : Nat) : Nat :=
  (decimal_part <<< 8) ||| integer_part

/-- Embeds `decode_temperature(value)`:
`(value & 0xFF) + ((value >> 8) & 0xFF) / 10.0`, in `ℚ`. -/
def decode_temperature (value : Nat) : ℚ :=
  ((value &&& 0xFF : Nat) : ℚ) + (((value >>> 8) &&& 0xFF : Nat) : ℚ) / 10

/-- Named booleans produced by the status decodings (the Python dict keys). -/
structure OperationStatus where
  compressor_on : Bool
  fan_on : Bool
  pipe_temp_error : Bool
  humidity_sensor_error : Bool
  room_temp_error : Bool
  water_full_error : Bool
  high_pressure_error : Bool
  low_pressure_error : Bool
  deriving Repr, DecidableEq

/-- Embeds `decode_operation_status(value)` from `medole_registers.py`
exactly as written: each flag is `bool(value & MASK)`, and for the two
pressure errors the mask used is the constant shifted right by 8
(`value & (STATUS_HIGH_PRESSURE_ERROR >> 8)`), i.e. it is applied to the
full 16-bit value, not to its high byte. -/
def decode_operation_status (value : Nat) : OperationStatus where
  compressor_on := value &&& STATUS_COMPRESSOR_ON != 0
  fan_on := value &&& STATUS_FAN_ON != 0
  pipe_temp_error := value &&& STATUS_PIPE_TEMP_ERROR != 0
  humidity_sensor_error := value &&& STATUS_HUMIDITY_SENSOR_ERROR != 0
  room_temp_error := value &&& STATUS_ROOM_TEMP_ERROR != 0
  water_full_error := value &&& STATUS_WATER_FULL_ERROR != 0
  high_pressure_error := value &&& (STATUS_HIGH_PRESSURE_ERROR >>> 8) != 0
  low_pressure_error := value &&& (STATUS_LOW_PRESSURE_ERROR >>> 8) != 0

/-- Embeds `MedoleStatusSensor.extra_state_attributes` from `sensor.py`:
it first splits the register into `lo_byte`/`hi_byte` and masks the
pressure errors against the high byte. -/
def extra_state_attributes (value : Nat) : OperationStatus :=
  let lo_byte := value &&& 0xFF
  let hi_byte := (value >>> 8) &&& 0xFF
  { compressor_on := lo_byte &&& STATUS_COMPRESSOR_ON != 0
    fan_on := lo_byte &&& STATUS_FAN_ON != 0
    pipe_temp_error := lo_byte &&& STATUS_PIPE_TEMP_ERROR != 0
    humidity_sensor_error := lo_byte &&& STATUS_HUMIDITY_SENSOR_ERROR != 0
    room_temp_error := lo_byte &&& STATUS_ROOM_TEMP_ERROR != 0
    water_full_error := lo_byte &&& STATUS_WATER_FULL_ERROR != 0
    high_pressure_error := hi_byte &&& (STATUS_HIGH_PRESSURE_ERROR >>> 8) != 0
    low_pressure_error := hi_byte &&& (STATUS_LOW_PRESSURE_ERROR >>> 8) != 0 }

/-- Embeds `MedolePipeTemperatureSensor.async_update` (`sensor.py`): the
native value is the raw register `result.registers[0]`, passed through
unchanged (interpreted as a temperature in °C). -/
def pipe_temperature_sensor_value (v : Nat) : ℚ := (v : ℚ)

/-- Embeds the pipe-temperature decoding used by `test_mock_server.py`:
`decode_temperature(result.registers[0])`. -/
def pipe_temperature_test_value (v : Nat) : ℚ := decode_temperature v

/-! ## The simulator tick (`mock-server/mock_modbus_server.py`,
`MedoleDehumidifierMockServer.update_sensor_values`)

One iteration of the `while self.running` loop, acting on the registers that
feed one another: the control registers (power, dehumidify mode, humidity
setpoint), the two humidity registers, the operation-status register and the
fan-operation-hours register.  The temperature and wall-clock registers are
also rewritten by the loop in the source, but their new values are computed
only from themselves and from fresh randomness/wall-clock input and feed none
of the registers modelled here, so they are carried unmodelled.  The two
`random.uniform` draws used by the humidity branch are inputs of the tick. -/

/-- Python `int(...)` applied to a float: truncation toward zero, on `ℚ`. -/
def pyInt (q : ℚ) : Int := if 0 ≤ q then ⌊q⌋ else ⌈q⌉

/-- The simulator registers modelled by the tick (all stored as u16 by the
pymodbus datastore; every value written here is a small nonnegative integer). -/
structure SimState where
  power : Nat
  dehumidify_mode : Nat
  humidity_setpoint : Nat
  humidity1 : Nat
  humidity2 : Nat
  operation_status : Nat
  fan_operation_hours : Nat
  deriving Repr, DecidableEq

/-- The two `random.uniform` draws consumed by one tick's humidity update
(`uniform(0, 1)` in the compressor branch, `uniform(0, 0.5)` otherwise). -/
structure TickRandom where
  humidityDelta1 : ℚ
  humidityDelta2 : ℚ
  deriving Repr, DecidableEq

/-- Embeds the `status` computation of `update_sensor_values`: `status = 0`,
then the `if power == 1 and dehumidify_mode == 1` / `elif power == 1` chain
with its `status |= ...` updates. -/
def operation_status_update
    (power dehumidify_mode humidity_setpoint current_humidity : Nat) : Nat :=
  if power = 1 ∧ dehumidify_mode = 1 then
    if humidity_setpoint = CONTINUOUS_DEHUMIDIFICATION ∨
        current_humidity > humidity_setpoint then
      0 ||| (STATUS_COMPRESSOR_ON ||| STATUS_FAN_ON)
    else
      0 ||| STATUS_FAN_ON
  else if power = 1 then
    0 ||| STATUS_FAN_ON
  else 0

/-- Embeds one iteration of the `update_sensor_values` loop body (the
registers documented above).  `current_humidity` is read once, before the
status write, exactly as in the source; the humidity branch is selected by
`status & STATUS_COMPRESSOR_ON` and the fan-hours branch by
`status & STATUS_FAN_ON`; each new value goes through Python `int(...)`
before being stored. -/
def tick (s : SimState) (r : TickRandom) : SimState :=
  let current_humidity := s.humidity1
  let status := operation_status_update s.power s.dehumidify_mode
    s.humidity_setpoint current_humidity
  let humidity1 :=
    if (status &&& STATUS_COMPRESSOR_ON) != 0 then
      (pyInt (max (MIN_HUMIDITY : ℚ)
        ((current_humidity : ℚ) - r.humidityDelta1))).toNat
    else
      (pyInt (min (MAX_HUMIDITY : ℚ)
        ((current_humidity : ℚ) + r.humidityDelta1))).toNat
  let humidity2 :=
    if (status &&& STATUS_COMPRESSOR_ON) != 0 then
      (pyInt (max (MIN_HUMIDITY : ℚ)
        ((s.humidity2 : ℚ) - r.humidityDelta2))).toNat
    else
      (pyInt (min (MAX_HUMIDITY : ℚ)
        ((s.humidity2 : ℚ) + r.humidityDelta2))).toNat
  let fan_operation_hours :=
    if (status &&& STATUS_FAN_ON) != 0 then
      (pyInt ((s.fan_operation_hours : ℚ) + 1 / 100)).toNat
    else s.fan_operation_hours
  { s with
    operation_status := status
    humidity1 := humidity1
    humidity2 := humidity2
    fan_operation_hours := fan_operation_hours }

/-- A sequence of ticks (the loop run `rs.length` times, with `rs` the
successive random draws). -/
def runTicks (s : SimState) (rs : List TickRandom) : SimState :=
  rs.foldl tick s

/-! ## The singleton client registry (`custom_components/medole/modbus.py`:
`MedoleModbusClient.__new__`, `__init__`, `_create_modbus_client`) -/

/-- The three `CONF_CONNECTION_TYPE` values the client distinguishes. -/
inductive ConnectionType
  | serial
  | rtuovertcp
  | tcp
  deriving Repr, DecidableEq

/-- Modelled from the spec: `const.py` (the integration's constants module,
not among the provided sources) defines `DEFAULT_BAUDRATE`; the spec lists
9600 among the admissible baud rates.  No claim settled here depends on the
concrete default values of `const.py`. -/
def DEFAULT_BAUDRATE : Nat := 9600

/-- Modelled from the spec: `const.py` defines `DEFAULT_BYTESIZE`; the spec
admits byte sizes 5–8. -/
def DEFAULT_BYTESIZE : Nat := 8

/-- Modelled from the spec: `const.py` defines `DEFAULT_PARITY`; the spec
admits None/Even/Odd. -/
def DEFAULT_PARITY : String := "N"

/-- Modelled from the spec: `const.py` defines `DEFAULT_STOPBITS`; the spec
admits 1 or 2. -/
def DEFAULT_STOPBITS : Nat := 1

/-- Modelled from the spec: `const.py` defines `DEFAULT_TCP_PORT`; the spec
calls it "502-class configurable". -/
def DEFAULT_TCP_PORT : Nat := 502

/-- A Home Assistant config dict, restricted to the keys the Modbus layer
reads; a missing key is `none` (Python `config.get(...)` yields `None`). -/
structure ModbusConfig where
  connection_type : Option ConnectionType
  port : Option String
  host : Option String
  tcp_port : Option Nat
  baudrate : Option Nat
  bytesize : Option Nat
  parity : Option String
  stopbits : Option Nat
  deriving Repr, DecidableEq

/-- Python `f"{v}"` for a string-valued dict entry that may be missing. -/
def pyFormatOptStr : Option String → String
  | none => "None"
  | some s => s

/-- Embeds the cache-key computation in `MedoleModbusClient.__new__`: a
serial key carries only the port path and slave id, a TCP-style key carries
host, TCP port (with default) and slave id. -/
def clientKey (config : ModbusConfig) (slave_id : Nat) : String :=
  match config.connection_type.getD .serial with
  | .serial =>
      "serial_" ++ pyFormatOptStr config.port ++ "_" ++ toString slave_id
  | .rtuovertcp =>
      "rtuovertcp_" ++ pyFormatOptStr config.host ++ "_" ++
        toString (config.tcp_port.getD DEFAULT_TCP_PORT) ++ "_" ++
        toString slave_id
  | .tcp =>
      "tcp_" ++ pyFormatOptStr config.host ++ "_" ++
        toString (config.tcp_port.getD DEFAULT_TCP_PORT) ++ "_" ++
        toString slave_id

/-- The pymodbus client object created by `_create_modbus_client`, reduced to
the constructor arguments the source passes. -/
inductive TransportParams
  | serialClient (port : String) (baudrate : Nat) (bytesize : Nat)
      (parity : String) (stopbits : Nat) (timeout : Nat)
  | rtuOverTcpClient (host : String) (port : Nat) (timeout : Nat)
  | tcpClient (host : String) (port : Nat) (timeout : Nat)
  deriving Repr, DecidableEq

/-- Embeds `_create_modbus_client`; `none` models the `KeyError` Python would
raise if a mandatory key (`config[CONF_PORT]`, `config[CONF_HOST]`) is
absent. -/
def create_modbus_client (config : ModbusConfig) : Option TransportParams :=
  match config.connection_type.getD .serial with
  | .serial =>
    match config.port with
    | none => none
    | some port =>
        some (.serialClient port (config.baudrate.getD DEFAULT_BAUDRATE)
          (config.bytesize.getD DEFAULT_BYTESIZE)
          (config.parity.getD DEFAULT_PARITY)
          (config.stopbits.getD DEFAULT_STOPBITS) 1)
  | .rtuovertcp =>
    match config.host with
    | none => none
    | some host =>
        some (.rtuOverTcpClient host (config.tcp_port.getD DEFAULT_TCP_PORT) 1)
  | .tcp =>
    match config.host with
    | none => none
    | some host =>
        some (.tcpClient host (config.tcp_port.getD DEFAULT_TCP_PORT) 1)

/-- One `MedoleModbusClient` object: the `_initialized` flag plus the
attributes `__init__` sets; `initCount` is a ghost field counting how many
times the initialization body actually ran. -/
structure ClientObj where
  initialized : Bool
  config : Option ModbusConfig
  slave_id : Option Nat
  client : Option TransportParams
  initCount : Nat
  deriving Repr, DecidableEq

/-- A freshly allocated, not yet initialized instance
(`_initialized = False`). -/
def newClientObj : ClientObj := ⟨false, none, none, none, 0⟩

/-- The class-level `_instances` cache plus all allocated objects; an object
is named by its index into `objects`, standing for Python object identity. -/
structure ClientRegistry where
  instances : List (String × Nat)
  objects : List ClientObj
  deriving Repr, DecidableEq

/-- The registry before any client has been constructed. -/
def emptyRegistry : ClientRegistry := ⟨[], []⟩

/-- Embeds `MedoleModbusClient.__new__`: look the key up in `_instances`,
allocating and caching a fresh uninitialized instance on a miss. -/
def medole_client_new (config : ModbusConfig) (slave_id : Nat)
    (reg : ClientRegistry) : Nat × ClientRegistry :=
  match reg.instances.lookup (clientKey config slave_id) with
  | some cid => (cid, reg)
  | none =>
    (reg.objects.length,
      ⟨(clientKey config slave_id, reg.objects.length) :: reg.instances,
        reg.objects ++ [newClientObj]⟩)

/-- Embeds `MedoleModbusClient.__init__`: return immediately if the instance
is already initialized, otherwise set its attributes (including the created
transport) and mark it initialized. -/
def medole_client_init (cid : Nat) (config : ModbusConfig) (slave_id : Nat)
    (reg : ClientRegistry) : ClientRegistry :=
  match reg.objects[cid]? with
  | none => reg
  | some obj =>
    if obj.initialized then reg
    else
      ⟨reg.instances,
        reg.objects.set cid
          ⟨true, some config, some slave_id, create_modbus_client config,
            obj.initCount + 1⟩⟩

/-- Constructing `MedoleModbusClient(hass, config, slave_id)`: Python runs
`__new__` and then `__init__` on whatever `__new__` returned. -/
def MedoleModbusClient_mk (config : ModbusConfig) (slave_id : Nat)
    (reg : ClientRegistry) : Nat × ClientRegistry :=
  ((medole_client_new config slave_id reg).1,
    medole_client_init (medole_client_new config slave_id reg).1 config
      slave_id (medole_client_new config slave_id reg).2)

/-! ## The register operations (`modbus.py`: `async_read_register`,
`async_write_register`, `async_write_registers`)

Each method is a `try`/`except ModbusException`/`finally` block around
`connect()`, one exchange, and a result check; the `finally` clause calls
`self.client.close()`.  The transport's behaviour during one call is an
input: whether `connect()` succeeds and, if reached, whether the exchange
returns a response (with its `isError()` flag and registers) or raises a
`ModbusException` (pymodbus surfaces timeouts and device exception codes
this way).  Each embedded method returns its Python return value paired with
the final connection state (`true` = still open). -/

/-- What one wire exchange does, as observable by the register layer. -/
inductive ExchangeOutcome
  | response (isError : Bool) (registers : List Nat)
  | modbusExc
  deriving Repr, DecidableEq

/-- The transport's behaviour during one call. -/
structure TransportBehavior where
  connectOk : Bool
  exchange : ExchangeOutcome
  deriving Repr, DecidableEq

/-- Control flow leaving a `try` body: a returned value, or a raised
`ModbusException` (the only exception type the `except` clause names). -/
inductive PyFlow (α : Type)
  | ret (a : α)
  | raisedModbus
  deriving Repr, DecidableEq

/-- Embeds `self.client.close()` acting on the connection state. -/
def client_close (_isOpen : Bool) : Bool := false

/-- The `try` body of `async_read_register`: `if not connect(): return None`;
then the exchange, which may raise; then `isError()` mapping to `None`, else
the result.  Second component: is the connection open when the body exits. -/
def read_register_body (b : TransportBehavior) :
    PyFlow (Option (List Nat)) × Bool :=
  if b.connectOk = false then (.ret none, false)
  else
    match b.exchange with
    | .modbusExc => (.raisedModbus, true)
    | .response isError regs =>
        if isError then (.ret none, true) else (.ret (some regs), true)

/-- Embeds `async_read_register`: the body above, the `except` handler
mapping a `ModbusException` to `None`, and the `finally` close. -/
def async_read_register (b : TransportBehavior) (_address _count : Nat) :
    Option (List Nat) × Bool :=
  let body := read_register_body b
  let value := match body.1 with
    | .ret v => v
    | .raisedModbus => none
  (value, client_close body.2)

/-- The `try` body of `async_write_register`: `if not connect(): return
False`; then the exchange; `isError()` maps to `False`, else `True`. -/
def write_register_body (b : TransportBehavior) : PyFlow Bool × Bool :=
  if b.connectOk = false then (.ret false, false)
  else
    match b.exchange with
    | .modbusExc => (.raisedModbus, true)
    | .response isError _ =>
        if isError then (.ret false, true) else (.ret true, true)

/-- Embeds `async_write_register`: body, `except` handler returning `False`,
`finally` close. -/
def async_write_register (b : TransportBehavior) (_address _value : Nat) :
    Bool × Bool :=
  let body := write_register_body b
  let value := match body.1 with
    | .ret v => v
    | .raisedModbus => false
  (value, client_close body.2)

/-- The `try` body of `async_write_registers` (`write_registers`), identical
in structure to the single-register write. -/
def write_registers_body (b : TransportBehavior) : PyFlow Bool × Bool :=
  if b.connectOk = false then (.ret false, false)
  else
    match b.exchange with
    | .modbusExc => (.raisedModbus, true)
    | .response isError _ =>
        if isError then (.ret false, true) else (.ret true, true)

/-- Embeds `async_write_registers`: body, `except` handler returning `False`,
`finally` close. -/
def async_write_registers (b : TransportBehavior) (_address : Nat)
    (_values : List Nat) : Bool × Bool :=
  let body := write_registers_body b
  let value := match body.1 with
    | .ret v => v
    | .raisedModbus => false
  (value, client_close body.2)

end Medole

namespace Medole

/-! ## Theorems for claims C1, C7, C8 -/

set_option maxRecDepth 100000 in
/-- Helper for C7: on the claimed ranges, the low byte of the encoding is the
integer part and the high byte is the tenths. -/
theorem encode_temperature_bytes :
    ∀ d < 10, ∀ i < 256,
      (encode_temperature i d) &&& 0xFF = i ∧
      ((encode_temperature i d) >>> 8) &&& 0xFF = d := by
  decide

/-- Claim C1: the claim states that `decode_operation_status` reads
`high_pressure_error` from bit 11 of the register.  In the source the mask
`STATUS_HIGH_PRESSURE_ERROR >> 8 = 0x08` is applied to the *unshifted* value,
so the flag actually reads bit 3 of the low byte: on input `0x0800` (bit 11
set) the flag is `false`, and on input `0x0008` (bit 11 clear) it is `true`.
The parallel decoding in `sensor.py` (`extra_state_attributes`), which masks
the high byte, does read bit 11, confirming the register-layer intent. -/
theorem decode_operation_status_high_pressure_bug :
    (decode_operation_status 0x0800).high_pressure_error = false ∧
    Nat.testBit 0x0800 11 = true ∧
    (decode_operation_status 0x0008).high_pressure_error = true ∧
    Nat.testBit 0x0008 11 = false ∧
    (extra_state_attributes 0x0800).high_pressure_error = true ∧
    (decode_operation_status 0x0400).low_pressure_error = false ∧
    Nat.testBit 0x0400 10 = true := by
  decide

/-- Claim C7: for every integer part `i ∈ [0,255]` and tenths `d ∈ [0,9]`,
`decode_temperature (encode_temperature i d) = i + d / 10`. -/
theorem decode_encode_temperature (i d : Nat) (hi : i ≤ 255) (hd : d ≤ 9) :
    decode_temperature (encode_temperature i d) = (i : ℚ) + (d : ℚ) / 10 := by
  obtain ⟨h1, h2⟩ :=
    encode_temperature_bytes d (by omega) i (by omega)
  unfold decode_temperature
  rw [h1, h2]

/-- Witness for C7 at `i = 25`, `d = 5` (the source's initial 25.5 °C). -/
theorem decode_encode_temperature_witness :
    decode_temperature (encode_temperature 25 5) = (25 : ℚ) + (5 : ℚ) / 10 :=
  decode_encode_temperature 25 5 (by decide) (by decide)

/-- Claim C8: the sensor platform's pipe-temperature decoding (raw
pass-through) and the test client's decoding (`decode_temperature`) disagree
on some 16-bit register value, e.g. `0x0519`, which the sensor reports as
1305 °C and the test client as 25.5 °C. -/
theorem pipe_temperature_decodings_differ :
    ∃ v : Nat, v < 65536 ∧
      pipe_temperature_sensor_value v ≠ pipe_temperature_test_value v := by
  refine ⟨0x0519, by decide, ?_⟩
  have h : (0x0519 &&& 0xFF : Nat) = 25 := by decide
  have h2 : ((0x0519 >>> 8) &&& 0xFF : Nat) = 5 := by decide
  unfold pipe_temperature_sensor_value pipe_temperature_test_value
    decode_temperature
  rw [h, h2]
  norm_num

/-! ## Theorems for claims C2, C3, C5 -/

/-- Helper: Python `int(n + 0.01)` for a register value `n` truncates straight
back to `n` — the fractional accumulation is discarded. -/
theorem pyInt_nat_add_centi (n : Nat) : (pyInt ((n : ℚ) + 1 / 100)).toNat = n := by
  have h0 : (0 : ℚ) ≤ (n : ℚ) + 1 / 100 := by positivity
  have hfl : ⌊(n : ℚ) + 1 / 100⌋ = (n : ℤ) := by
    apply Int.floor_eq_iff.mpr
    constructor
    · push_cast; linarith
    · push_cast; linarith
  unfold pyInt
  rw [if_pos h0, hfl]
  exact Int.toNat_natCast n

/-- Claim C2: in the source, the fan-hours update stores
`int(fan_hours + 0.01)` where `fan_hours` was just read back as the stored
integer, so the register is unchanged on every tick — also when the fan is on
(refuting the claimed strict increase, while confirming it never decreases).
In particular a tick from `fan_operation_hours = 100` with the fan running
ends at 100, not above it. -/
theorem tick_fan_hours_unchanged (s : SimState) (r : TickRandom) :
    (tick s r).fan_operation_hours = s.fan_operation_hours := by
  have hfan : (tick s r).fan_operation_hours =
      if (operation_status_update s.power s.dehumidify_mode
            s.humidity_setpoint s.humidity1 &&& STATUS_FAN_ON) != 0 then
        (pyInt ((s.fan_operation_hours : ℚ) + 1 / 100)).toNat
      else s.fan_operation_hours := rfl
  rw [hfan]
  split
  · exact pyInt_nat_add_centi s.fan_operation_hours
  · rfl

/-- Helper: bounds on the truncated stored value from bounds on the exact one. -/
theorem pyInt_toNat_bounds (q : ℚ) (hlo : (20 : ℚ) ≤ q) (hhi : q ≤ 90) :
    20 ≤ (pyInt q).toNat ∧ (pyInt q).toNat ≤ 90 := by
  have h0 : (0 : ℚ) ≤ q := by linarith
  have h1 : (20 : ℤ) ≤ ⌊q⌋ := Int.le_floor.mpr (by exact_mod_cast hlo)
  have h2 : ⌊q⌋ ≤ (90 : ℤ) := by
    have := Int.floor_le_floor hhi
    simpa using this
  unfold pyInt
  rw [if_pos h0]
  omega

/-- Helper: one tick keeps both humidity registers within `[20, 90]` when they
start there and the random draws are nonnegative. -/
theorem tick_humidity_bounds (s : SimState) (r : TickRandom)
    (hs1 : 20 ≤ s.humidity1 ∧ s.humidity1 ≤ 90)
    (hs2 : 20 ≤ s.humidity2 ∧ s.humidity2 ≤ 90)
    (hr1 : 0 ≤ r.humidityDelta1) (hr2 : 0 ≤ r.humidityDelta2) :
    (20 ≤ (tick s r).humidity1 ∧ (tick s r).humidity1 ≤ 90) ∧
    (20 ≤ (tick s r).humidity2 ∧ (tick s r).humidity2 ≤ 90) := by
  have hq1 : ((s.humidity1 : ℚ)) ≤ 90 := by exact_mod_cast hs1.2
  have hq1' : (20 : ℚ) ≤ (s.humidity1 : ℚ) := by exact_mod_cast hs1.1
  have hq2 : ((s.humidity2 : ℚ)) ≤ 90 := by exact_mod_cast hs2.2
  have hq2' : (20 : ℚ) ≤ (s.humidity2 : ℚ) := by exact_mod_cast hs2.1
  have hMin : ((MIN_HUMIDITY : ℚ)) = 20 := by norm_num [MIN_HUMIDITY]
  have hMax : ((MAX_HUMIDITY : ℚ)) = 90 := by norm_num [MAX_HUMIDITY]
  constructor
  · have h : (tick s r).humidity1 =
        if (operation_status_update s.power s.dehumidify_mode
              s.humidity_setpoint s.humidity1 &&& STATUS_COMPRESSOR_ON) != 0 then
          (pyInt (max (MIN_HUMIDITY : ℚ)
            ((s.humidity1 : ℚ) - r.humidityDelta1))).toNat
        else
          (pyInt (min (MAX_HUMIDITY : ℚ)
            ((s.humidity1 : ℚ) + r.humidityDelta1))).toNat := rfl
    rw [h]
    split
    · exact pyInt_toNat_bounds _ (by rw [hMin]; exact le_max_left _ _)
        (by rw [hMin]; exact max_le (by norm_num) (by linarith))
    · exact pyInt_toNat_bounds _
        (by rw [hMax]; exact le_min (by norm_num) (by linarith))
        (by rw [hMax]; exact min_le_left _ _)
  · have h : (tick s r).humidity2 =
        if (operation_status_update s.power s.dehumidify_mode
              s.humidity_setpoint s.humidity1 &&& STATUS_COMPRESSOR_ON) != 0 then
          (pyInt (max (MIN_HUMIDITY : ℚ)
            ((s.humidity2 : ℚ) - r.humidityDelta2))).toNat
        else
          (pyInt (min (MAX_HUMIDITY : ℚ)
            ((s.humidity2 : ℚ) + r.humidityDelta2))).toNat := rfl
    rw [h]
    split
    · exact pyInt_toNat_bounds _ (by rw [hMin]; exact le_max_left _ _)
        (by rw [hMin]; exact max_le (by norm_num) (by linarith))
    · exact pyInt_toNat_bounds _
        (by rw [hMax]; exact le_min (by norm_num) (by linarith))
        (by rw [hMax]; exact min_le_left _ _)

/-- Claim C3, counterexample: starting from humidity registers at 65535 with
power on, dehumidify mode on and a continuous (0) setpoint, one tick with
draw 1/2 stores `int(max(20, 65535 - 0.5)) = 65534`, outside `[20, 90]` —
the lower clamp never pulls an out-of-range-high value back below
`MAX_HUMIDITY` while the compressor runs. -/
theorem humidity_range_counterexample :
    ¬ (MIN_HUMIDITY ≤
        (runTicks ⟨1, 1, 0, 65535, 65535, 64, 100⟩
          [⟨1/2, 1/2⟩]).humidity1 ∧
      (runTicks ⟨1, 1, 0, 65535, 65535, 64, 100⟩
          [⟨1/2, 1/2⟩]).humidity1 ≤ MAX_HUMIDITY) := by
  have hval : (runTicks ⟨1, 1, 0, 65535, 65535, 64, 100⟩
      [⟨1/2, 1/2⟩]).humidity1 = 65534 := by
    have hb : (runTicks ⟨1, 1, 0, 65535, 65535, 64, 100⟩
        [⟨1/2, 1/2⟩]).humidity1 =
        (pyInt (max (MIN_HUMIDITY : ℚ) (((65535 : ℕ) : ℚ) - 1/2))).toNat := rfl
    have hmax : max ((MIN_HUMIDITY : ℕ) : ℚ) (((65535 : ℕ) : ℚ) - 1/2) =
        131069 / 2 := by
      rw [max_eq_right] <;> norm_num [MIN_HUMIDITY]
    have hfl : ⌊(131069 / 2 : ℚ)⌋ = (65534 : ℤ) := by
      apply Int.floor_eq_iff.mpr
      constructor <;> norm_num
    rw [hb, hmax]
    unfold pyInt
    rw [if_pos (by norm_num), hfl]
    rfl
  rw [hval]
  intro h
  have := h.2
  norm_num [MAX_HUMIDITY] at this

/-- Claim C3 as amended: if both humidity registers start within
`[MIN_HUMIDITY, MAX_HUMIDITY] = [20, 90]`, then after any sequence of ticks
with nonnegative random draws (as `random.uniform` produces) and any
control-register settings, both registers remain within `[20, 90]`. -/
theorem runTicks_humidity_bounds (s : SimState) (rs : List TickRandom)
    (hs1 : MIN_HUMIDITY ≤ s.humidity1 ∧ s.humidity1 ≤ MAX_HUMIDITY)
    (hs2 : MIN_HUMIDITY ≤ s.humidity2 ∧ s.humidity2 ≤ MAX_HUMIDITY)
    (hrs : ∀ r ∈ rs, 0 ≤ r.humidityDelta1 ∧ 0 ≤ r.humidityDelta2) :
    (MIN_HUMIDITY ≤ (runTicks s rs).humidity1 ∧
      (runTicks s rs).humidity1 ≤ MAX_HUMIDITY) ∧
    (MIN_HUMIDITY ≤ (runTicks s rs).humidity2 ∧
      (runTicks s rs).humidity2 ≤ MAX_HUMIDITY) := by
  induction rs generalizing s with
  | nil => exact ⟨hs1, hs2⟩
  | cons r rs ih =>
    have hr := hrs r (List.mem_cons_self r rs)
    have hstep := tick_humidity_bounds s r hs1 hs2 hr.1 hr.2
    have hrest : ∀ r' ∈ rs, 0 ≤ r'.humidityDelta1 ∧ 0 ≤ r'.humidityDelta2 :=
      fun r' hr' => hrs r' (List.mem_cons_of_mem r hr')
    exact ih (tick s r) hstep.1 hstep.2 hrest

/-- Witness for the amended C3: a concrete in-range start (both registers at
60) and one tick with draws 1/2 stays within `[20, 90]`. -/
theorem runTicks_humidity_bounds_witness :
    (MIN_HUMIDITY ≤
        (runTicks ⟨1, 1, 0, 60, 60, 64, 100⟩ [⟨1/2, 1/2⟩]).humidity1 ∧
      (runTicks ⟨1, 1, 0, 60, 60, 64, 100⟩ [⟨1/2, 1/2⟩]).humidity1
        ≤ MAX_HUMIDITY) ∧
    (MIN_HUMIDITY ≤
        (runTicks ⟨1, 1, 0, 60, 60, 64, 100⟩ [⟨1/2, 1/2⟩]).humidity2 ∧
      (runTicks ⟨1, 1, 0, 60, 60, 64, 100⟩ [⟨1/2, 1/2⟩]).humidity2
        ≤ MAX_HUMIDITY) :=
  runTicks_humidity_bounds ⟨1, 1, 0, 60, 60, 64, 100⟩ [⟨1/2, 1/2⟩]
    (by decide) (by decide)
    (by
      intro r hr
      simp only [List.mem_singleton] at hr
      rw [hr]
      constructor <;> norm_num)

/-- Helper: the only bits a recomputed status word can carry are 6 and 7. -/
theorem status_literal_other_bits (c : Nat) (hc : c = 192 ∨ c = 64 ∨ c = 0) :
    ∀ k, k ≠ 7 → k ≠ 6 → c.testBit k = false := by
  intro k h7 h6
  rcases Nat.lt_or_ge k 8 with hk | hk
  · interval_cases k <;>
      first
        | exact absurd rfl h7
        | exact absurd rfl h6
        | (rcases hc with h | h | h <;> subst h <;> decide)
  · have hlt : c < 256 := by rcases hc with h | h | h <;> omega
    have h256 : (256 : ℕ) ≤ 2 ^ k := by
      calc (256 : ℕ) = 2 ^ 8 := by norm_num
        _ ≤ 2 ^ k := Nat.pow_le_pow_right (by norm_num) hk
    exact Nat.testBit_lt_two_pow (lt_of_lt_of_le hlt h256)

/-- Claim C5: on every tick, the value written to the operation-status
register has its compressor bit (bit 7) set iff
`power = 1 ∧ dehumidify_mode = 1 ∧ (setpoint = 0 ∨ humidity1 > setpoint)`,
its fan bit (bit 6) set iff `power = 1`, and every other bit written as 0. -/
theorem tick_operation_status_bits (s : SimState) (r : TickRandom) :
    (((tick s r).operation_status.testBit 7 = true) ↔
      (s.power = 1 ∧ s.dehumidify_mode = 1 ∧
        (s.humidity_setpoint = CONTINUOUS_DEHUMIDIFICATION ∨
          s.humidity1 > s.humidity_setpoint))) ∧
    (((tick s r).operation_status.testBit 6 = true) ↔ s.power = 1) ∧
    (∀ k, k ≠ 7 → k ≠ 6 → (tick s r).operation_status.testBit k = false) := by
  have hos : (tick s r).operation_status =
      operation_status_update s.power s.dehumidify_mode s.humidity_setpoint
        s.humidity1 := rfl
  rw [hos]
  unfold operation_status_update
  by_cases h1 : s.power = 1 ∧ s.dehumidify_mode = 1
  · by_cases h2 : s.humidity_setpoint = CONTINUOUS_DEHUMIDIFICATION ∨
        s.humidity1 > s.humidity_setpoint
    · rw [if_pos h1, if_pos h2]
      refine ⟨⟨fun _ => ⟨h1.1, h1.2, h2⟩, fun _ => by decide⟩,
        ⟨fun _ => h1.1, fun _ => by decide⟩,
        status_literal_other_bits _ (Or.inl (by decide))⟩
    · rw [if_pos h1, if_neg h2]
      refine ⟨⟨fun hb => absurd hb (by decide), fun hrhs => absurd hrhs.2.2 h2⟩,
        ⟨fun _ => h1.1, fun _ => by decide⟩,
        status_literal_other_bits _ (Or.inr (Or.inl (by decide)))⟩
  · rw [if_neg h1]
    by_cases hp : s.power = 1
    · rw [if_pos hp]
      refine ⟨⟨fun hb => absurd hb (by decide),
          fun hrhs => absurd ⟨hrhs.1, hrhs.2.1⟩ h1⟩,
        ⟨fun _ => hp, fun _ => by decide⟩,
        status_literal_other_bits _ (Or.inr (Or.inl (by decide)))⟩
    · rw [if_neg hp]
      refine ⟨⟨fun hb => absurd hb (by decide), fun hrhs => absurd hrhs.1 hp⟩,
        ⟨fun hb => absurd hb (by decide), fun hrhs => absurd hrhs hp⟩,
        status_literal_other_bits _ (Or.inr (Or.inr rfl))⟩

/-- Witness for C5: with power on, dehumidify mode on and a continuous
setpoint the theorem instantiates, and e.g. the water-full bit (bit 1) is
written as 0. -/
theorem tick_operation_status_bits_witness :
    (tick ⟨1, 1, 0, 60, 60, 64, 100⟩ ⟨1/2, 1/2⟩).operation_status.testBit 1
      = false :=
  (tick_operation_status_bits ⟨1, 1, 0, 60, 60, 64, 100⟩ ⟨1/2, 1/2⟩).2.2 1
    (by decide) (by decide)

/-! ## Theorems for claims C4, C10, C6, C9 -/

/-- Helper: `__new__` on a cache hit returns the cached instance and leaves
the registry untouched. -/
theorem medole_client_new_hit (config : ModbusConfig) (slave_id : Nat)
    (reg : ClientRegistry) (cid : Nat)
    (h : reg.instances.lookup (clientKey config slave_id) = some cid) :
    medole_client_new config slave_id reg = (cid, reg) := by
  unfold medole_client_new
  rw [h]

/-- Helper: `__init__` is the identity when the index is unallocated. -/
theorem medole_client_init_none (cid : Nat) (config : ModbusConfig)
    (slave_id : Nat) (reg : ClientRegistry)
    (h : reg.objects[cid]? = none) :
    medole_client_init cid config slave_id reg = reg := by
  unfold medole_client_init
  rw [h]

/-- Helper: `__init__` is the identity on an already-initialized instance. -/
theorem medole_client_init_some_init (cid : Nat) (config : ModbusConfig)
    (slave_id : Nat) (reg : ClientRegistry) (obj : ClientObj)
    (h : reg.objects[cid]? = some obj) (hi : obj.initialized = true) :
    medole_client_init cid config slave_id reg = reg := by
  unfold medole_client_init
  rw [h]
  simp [hi]

/-- Helper: on an uninitialized instance, `__init__` installs the fully
initialized object. -/
theorem medole_client_init_some_uninit (cid : Nat) (config : ModbusConfig)
    (slave_id : Nat) (reg : ClientRegistry) (obj : ClientObj)
    (h : reg.objects[cid]? = some obj) (hi : obj.initialized = false) :
    medole_client_init cid config slave_id reg =
      ⟨reg.instances,
        reg.objects.set cid
          ⟨true, some config, some slave_id, create_modbus_client config,
            obj.initCount + 1⟩⟩ := by
  unfold medole_client_init
  rw [h]
  simp [hi]

/-- Helper: `__init__` is a no-op when the instance is already initialized
(or was never allocated). -/
theorem medole_client_init_noop (cid : Nat) (config : ModbusConfig)
    (slave_id : Nat) (reg : ClientRegistry)
    (h : ∀ obj, reg.objects[cid]? = some obj → obj.initialized = true) :
    medole_client_init cid config slave_id reg = reg := by
  cases hobj : reg.objects[cid]? with
  | none => exact medole_client_init_none cid config slave_id reg hobj
  | some obj =>
    exact medole_client_init_some_init cid config slave_id reg obj hobj
      (h obj hobj)

/-- Helper: `__init__` never touches the `_instances` cache. -/
theorem medole_client_init_instances (cid : Nat) (config : ModbusConfig)
    (slave_id : Nat) (reg : ClientRegistry) :
    (medole_client_init cid config slave_id reg).instances = reg.instances := by
  cases hobj : reg.objects[cid]? with
  | none => rw [medole_client_init_none cid config slave_id reg hobj]
  | some obj =>
    cases hi : obj.initialized with
    | true =>
      rw [medole_client_init_some_init cid config slave_id reg obj hobj hi]
    | false =>
      rw [medole_client_init_some_uninit cid config slave_id reg obj hobj hi]

/-- Helper: whatever object `__init__` leaves at the targeted index is
initialized. -/
theorem medole_client_init_post (cid : Nat) (config : ModbusConfig)
    (slave_id : Nat) (reg : ClientRegistry) :
    ∀ obj, (medole_client_init cid config slave_id reg).objects[cid]? =
      some obj → obj.initialized = true := by
  intro obj hobj
  cases hobj0 : reg.objects[cid]? with
  | none =>
    rw [medole_client_init_none cid config slave_id reg hobj0] at hobj
    rw [hobj0] at hobj
    simp at hobj
  | some obj0 =>
    cases hi : obj0.initialized with
    | true =>
      rw [medole_client_init_some_init cid config slave_id reg obj0 hobj0 hi]
        at hobj
      rw [hobj0] at hobj
      injection hobj with h
      rw [← h]
      exact hi
    | false =>
      rw [medole_client_init_some_uninit cid config slave_id reg obj0 hobj0 hi]
        at hobj
      have hcid : cid < reg.objects.length := by
        by_contra hc
        push_neg at hc
        simp [List.getElem?_eq_none hc] at hobj0
      rw [show (⟨reg.instances,
            reg.objects.set cid
              ⟨true, some config, some slave_id, create_modbus_client config,
                obj0.initCount + 1⟩⟩ : ClientRegistry).objects =
          reg.objects.set cid
            ⟨true, some config, some slave_id, create_modbus_client config,
              obj0.initCount + 1⟩ from rfl] at hobj
      rw [List.getElem?_set_eq_of_lt _ hcid] at hobj
      injection hobj with h
      rw [← h]

/-- Helper: after `__new__`, the key is cached and maps to the returned
instance. -/
theorem medole_client_new_lookup (config : ModbusConfig) (slave_id : Nat)
    (reg : ClientRegistry) :
    (medole_client_new config slave_id reg).2.instances.lookup
      (clientKey config slave_id) =
        some (medole_client_new config slave_id reg).1 := by
  unfold medole_client_new
  cases hl : reg.instances.lookup (clientKey config slave_id) with
  | some cid => exact hl
  | none => simp [List.lookup]

/-- Helper: after one construction, the computed key is cached and maps to
the returned instance, and that instance (when allocated) is initialized. -/
theorem MedoleModbusClient_mk_post (config : ModbusConfig) (slave_id : Nat)
    (reg : ClientRegistry) :
    ((MedoleModbusClient_mk config slave_id reg).2.instances.lookup
        (clientKey config slave_id) =
      some (MedoleModbusClient_mk config slave_id reg).1) ∧
    (∀ obj,
      (MedoleModbusClient_mk config slave_id
          reg).2.objects[(MedoleModbusClient_mk config slave_id reg).1]? =
        some obj →
      obj.initialized = true) := by
  constructor
  · show (medole_client_init (medole_client_new config slave_id reg).1 config
        slave_id (medole_client_new config slave_id reg).2).instances.lookup
          (clientKey config slave_id) =
      some (medole_client_new config slave_id reg).1
    rw [medole_client_init_instances]
    exact medole_client_new_lookup config slave_id reg
  · exact medole_client_init_post (medole_client_new config slave_id reg).1
      config slave_id (medole_client_new config slave_id reg).2

/-- Helper: constructing against a registry that already caches an
initialized instance for the key returns that instance and changes nothing. -/
theorem MedoleModbusClient_mk_cached (config : ModbusConfig) (slave_id : Nat)
    (reg : ClientRegistry) (cid : Nat)
    (hlook : reg.instances.lookup (clientKey config slave_id) = some cid)
    (hinit : ∀ obj, reg.objects[cid]? = some obj → obj.initialized = true) :
    MedoleModbusClient_mk config slave_id reg = (cid, reg) := by
  unfold MedoleModbusClient_mk
  rw [medole_client_new_hit config slave_id reg cid hlook]
  rw [medole_client_init_noop cid config slave_id reg hinit]

/-- Claim C4: constructing `MedoleModbusClient` twice with structurally equal
configurations and the same slave id returns the identical instance (the same
index into the object store, hence one shared lock and one transport), and
the second construction leaves the registry — including every instance's
initialization count — unchanged: initialization is not re-run. -/
theorem MedoleModbusClient_mk_idempotent (config₁ config₂ : ModbusConfig)
    (slave_id : Nat) (reg : ClientRegistry) (hcfg : config₁ = config₂) :
    MedoleModbusClient_mk config₂ slave_id
        (MedoleModbusClient_mk config₁ slave_id reg).2 =
      ((MedoleModbusClient_mk config₁ slave_id reg).1,
        (MedoleModbusClient_mk config₁ slave_id reg).2) := by
  subst hcfg
  obtain ⟨hlook, hinit⟩ := MedoleModbusClient_mk_post config₁ slave_id reg
  exact MedoleModbusClient_mk_cached config₁ slave_id
    (MedoleModbusClient_mk config₁ slave_id reg).2
    (MedoleModbusClient_mk config₁ slave_id reg).1 hlook hinit

/-- Witness for C4: two constructions with the same concrete serial
configuration, starting from the empty registry, return the same instance
and the second leaves the registry unchanged. -/
theorem MedoleModbusClient_mk_idempotent_witness :
    MedoleModbusClient_mk
        ⟨some .serial, some "p", none, none, some 9600, none, none, none⟩ 1
        (MedoleModbusClient_mk
          ⟨some .serial, some "p", none, none, some 9600, none, none, none⟩ 1
          emptyRegistry).2 =
      ((MedoleModbusClient_mk
          ⟨some .serial, some "p", none, none, some 9600, none, none, none⟩ 1
          emptyRegistry).1,
        (MedoleModbusClient_mk
          ⟨some .serial, some "p", none, none, some 9600, none, none, none⟩ 1
          emptyRegistry).2) :=
  MedoleModbusClient_mk_idempotent
    ⟨some .serial, some "p", none, none, some 9600, none, none, none⟩
    ⟨some .serial, some "p", none, none, some 9600, none, none, none⟩
    1 emptyRegistry rfl

/-- Claim C10: for serial connections the cache key is only (port path,
slave id): any two serial configurations sharing port and slave id —
however their baud rate, byte size, parity or stop bits relate — collapse to
the one client built from the first configuration: the second construction
returns that same instance and the stored attributes (config and created
transport) are still those of the first configuration, so the second
configuration's serial parameters are never applied. -/
theorem serial_key_ignores_params (cfg₁ cfg₂ : ModbusConfig) (slave_id : Nat)
    (h₁ : cfg₁.connection_type.getD .serial = .serial)
    (h₂ : cfg₂.connection_type.getD .serial = .serial)
    (hport : cfg₂.port = cfg₁.port) :
    (MedoleModbusClient_mk cfg₂ slave_id
        (MedoleModbusClient_mk cfg₁ slave_id emptyRegistry).2).1 =
      (MedoleModbusClient_mk cfg₁ slave_id emptyRegistry).1 ∧
    (MedoleModbusClient_mk cfg₂ slave_id
        (MedoleModbusClient_mk cfg₁ slave_id
          emptyRegistry).2).2.objects[(MedoleModbusClient_mk cfg₁ slave_id
          emptyRegistry).1]? =
      some ⟨true, some cfg₁, some slave_id, create_modbus_client cfg₁, 1⟩ := by
  have hkey : clientKey cfg₂ slave_id = clientKey cfg₁ slave_id := by
    unfold clientKey
    rw [h₁, h₂, hport]
  have h1 : MedoleModbusClient_mk cfg₁ slave_id emptyRegistry =
      (0, ⟨[(clientKey cfg₁ slave_id, 0)],
        [⟨true, some cfg₁, some slave_id, create_modbus_client cfg₁, 1⟩]⟩) :=
    rfl
  have h2 : MedoleModbusClient_mk cfg₂ slave_id
      (⟨[(clientKey cfg₁ slave_id, 0)],
        [⟨true, some cfg₁, some slave_id, create_modbus_client cfg₁, 1⟩]⟩ :
        ClientRegistry) =
      (0, ⟨[(clientKey cfg₁ slave_id, 0)],
        [⟨true, some cfg₁, some slave_id, create_modbus_client cfg₁, 1⟩]⟩) := by
    apply MedoleModbusClient_mk_cached
    · rw [hkey]
      simp [List.lookup]
    · intro obj hobj
      simp at hobj
      rw [← hobj]
  refine ⟨?_, ?_⟩ <;> (simp only [h1, h2]; try simp)

/-- Witness for C10: concrete serial configurations sharing port "p" and
slave id 1 but with baud rates 9600 and 19200. -/
theorem serial_key_ignores_params_witness :
    (MedoleModbusClient_mk
        ⟨some .serial, some "p", none, none, some 19200, none, none, none⟩ 1
        (MedoleModbusClient_mk
          ⟨some .serial, some "p", none, none, some 9600, none, none, none⟩ 1
          emptyRegistry).2).1 =
      (MedoleModbusClient_mk
        ⟨some .serial, some "p", none, none, some 9600, none, none, none⟩ 1
        emptyRegistry).1 ∧
    (MedoleModbusClient_mk
        ⟨some .serial, some "p", none, none, some 19200, none, none, none⟩ 1
        (MedoleModbusClient_mk
          ⟨some .serial, some "p", none, none, some 9600, none, none, none⟩ 1
          emptyRegistry).2).2.objects[(MedoleModbusClient_mk
          ⟨some .serial, some "p", none, none, some 9600, none, none, none⟩ 1
          emptyRegistry).1]? =
      some ⟨true,
        some ⟨some .serial, some "p", none, none, some 9600, none, none, none⟩,
        some 1,
        create_modbus_client
          ⟨some .serial, some "p", none, none, some 9600, none, none, none⟩,
        1⟩ :=
  serial_key_ignores_params
    ⟨some .serial, some "p", none, none, some 9600, none, none, none⟩
    ⟨some .serial, some "p", none, none, some 19200, none, none, none⟩
    1 rfl rfl rfl

/-- Claim C6: for every transport behaviour, each public operation returns
its sentinel on failure (connect failure, raised `ModbusException` — the
shape of a pymodbus timeout —, or a device error response) and the
successful result otherwise; the functions are total, so no exception passes
the public boundary. -/
theorem modbus_ops_sentinels (b : TransportBehavior)
    (address count value : Nat) (values : List Nat) :
    (b.connectOk = false →
      (async_read_register b address count).1 = none ∧
      (async_write_register b address value).1 = false ∧
      (async_write_registers b address values).1 = false) ∧
    (b.exchange = .modbusExc →
      (async_read_register b address count).1 = none ∧
      (async_write_register b address value).1 = false ∧
      (async_write_registers b address values).1 = false) ∧
    (∀ regs, b.exchange = .response true regs →
      (async_read_register b address count).1 = none ∧
      (async_write_register b address value).1 = false ∧
      (async_write_registers b address values).1 = false) ∧
    (∀ regs, b.connectOk = true → b.exchange = .response false regs →
      (async_read_register b address count).1 = some regs ∧
      (async_write_register b address value).1 = true ∧
      (async_write_registers b address values).1 = true) := by
  rcases b with ⟨co, ex⟩
  rcases ex with ⟨isErr, regs0⟩ | _ <;> cases co <;>
    first
      | (cases isErr <;>
          simp [async_read_register, read_register_body, async_write_register,
            write_register_body, async_write_registers, write_registers_body,
            client_close])
      | simp [async_read_register, read_register_body, async_write_register,
          write_register_body, async_write_registers, write_registers_body,
          client_close]

/-- Witness for C6: a successful exchange returning register value 5 makes
the read return it and both writes succeed. -/
theorem modbus_ops_sentinels_witness :
    (async_read_register ⟨true, .response false [5]⟩ 0x6201 1).1 = some [5] ∧
    (async_write_register ⟨true, .response false [5]⟩ 0x6201 1).1 = true ∧
    (async_write_registers ⟨true, .response false [5]⟩ 0x6201 [1]).1 = true :=
  (modbus_ops_sentinels ⟨true, .response false [5]⟩ 0x6201 1 1 [1]).2.2.2
    [5] rfl rfl

/-- Claim C9: however the transport behaves during the call, each public
operation's `finally` clause has closed the connection by the time control
returns to the caller. -/
theorem modbus_ops_close_connection (b : TransportBehavior)
    (address count value : Nat) (values : List Nat) :
    (async_read_register b address count).2 = false ∧
    (async_write_register b address value).2 = false ∧
    (async_write_registers b address values).2 = false :=
  ⟨rfl, rfl, rfl⟩

end Medole
